import Mathlib

/-!
Verification development for the PWA icon generator script
(`generate-icons.py`).

The script is modelled as a shallow embedding: each call of the Pillow
drawing / filesystem API that the script performs is recorded as one
constructor of the `Effect` type, in program order.  `create_icon` and the
driver `main_run` are pure Lean functions producing the exact effect trace
the Python code performs, parameterised by

  * `fontOk : Bool` — whether loading the truetype font at
    "/System/Library/Fonts/Helvetica.ttc" succeeds (the `try`/`except`
    in the script), and
  * `textbbox : Font → String → BBox` — the text-measurement oracle,
    standing for Pillow's `draw.textbbox`, which depends only on the font
    and the text.

Integer arithmetic follows Python exactly: `//` on possibly negative
integers is floor division, modelled with `Int.fdiv`; nonnegative
quantities use `Nat` division, which agrees with Python `//`.
-/

/-- A text bounding box as returned by Pillow's `draw.textbbox`:
`(left, top, right, bottom)`. -/
structure BBox where
  left : Int
  top : Int
  right : Int
  bottom : Int
deriving DecidableEq, Repr

/-- The font object used for drawing: either a truetype font loaded from a
path at a pixel size (`ImageFont.truetype`), or the default bitmap font
(`ImageFont.load_default`). -/
inductive Font where
  | truetype (path : String) (size : Nat)
  | load_default
deriving DecidableEq, Repr

/-- The text-measurement oracle: what `draw.textbbox((0,0), text, font=font)`
returns for a given font and text. -/
def TextBBox : Type := Font → String → BBox

/-- One observable action of the script, in program order:
image allocation, rectangle drawing, text drawing, PNG save, console
print, and directory creation. -/
inductive Effect where
  | newImage (mode : String) (width : Nat) (height : Nat) (color : String)
  | rectangle (x0 : Int) (y0 : Int) (x1 : Int) (y1 : Int)
      (outline : String) (width : Nat)
  | text (x : Int) (y : Int) (s : String) (fill : String) (font : Font)
  | save (path : String) (format : String)
  | print (msg : String)
  | makedirs (path : String) (exist_ok : Bool)
deriving DecidableEq, Repr

/-- `border_width = max(2, size // 40)` from `create_icon`. -/
def border_width (size : Nat) : Nat := max 2 (size / 40)

/-- `shadow_offset = max(1, size // 100)` from `create_icon`. -/
def shadow_offset (size : Nat) : Nat := max 1 (size / 100)

/-- The `try: font = ImageFont.truetype(...)` step: succeeds exactly when
the system font is available. -/
def truetype_load (fontOk : Bool) (path : String) (font_size : Nat) :
    Except String Font :=
  if fontOk then Except.ok (Font.truetype path font_size)
  else Except.error ("cannot open resource")

/-- The font actually used by `create_icon`: the truetype font at size
`size // 2` when loading succeeds, otherwise `ImageFont.load_default()`. -/
def chosen_font (fontOk : Bool) (size : Nat) : Font :=
  match truetype_load fontOk ("/System/Library/Fonts/Helvetica.ttc") (size / 2) with
  | Except.ok f => f
  | Except.error _ => Font.load_default

/-- `text_width = bbox[2] - bbox[0]` for the text "IM" under the chosen
font. -/
def text_width (size : Nat) (fontOk : Bool) (tb : TextBBox) : Int :=
  (tb (chosen_font fontOk size) ("IM")).right -
    (tb (chosen_font fontOk size) ("IM")).left

/-- `text_height = bbox[3] - bbox[1]` for the text "IM" under the chosen
font. -/
def text_height (size : Nat) (fontOk : Bool) (tb : TextBBox) : Int :=
  (tb (chosen_font fontOk size) ("IM")).bottom -
    (tb (chosen_font fontOk size) ("IM")).top

/-- `x = (size - text_width) // 2`: the horizontal coordinate of the
foreground text (Python floor division). -/
def text_x (size : Nat) (fontOk : Bool) (tb : TextBBox) : Int :=
  Int.fdiv ((size : Int) - text_width size fontOk tb) 2

/-- `y = (size - text_height) // 2 - bbox[1]`: the vertical coordinate of
the foreground text. -/
def text_y (size : Nat) (fontOk : Bool) (tb : TextBBox) : Int :=
  Int.fdiv ((size : Int) - text_height size fontOk tb) 2 -
    (tb (chosen_font fontOk size) ("IM")).top

/-- The effect trace of `create_icon(size, output_path)`: allocate an RGB
canvas, draw the border rectangle, draw the text twice (shadow then
foreground), save as PNG, print a status line. -/
def create_icon (size : Nat) (output_path : String) (fontOk : Bool)
    (tb : TextBBox) : List Effect :=
  let bw := border_width size
  let font := chosen_font fontOk size
  let x := text_x size fontOk tb
  let y := text_y size fontOk tb
  let so : Int := (shadow_offset size : Int)
  [ Effect.newImage ("RGB") size size ("#4CAF50"),
    Effect.rectangle bw bw ((size : Int) - bw) ((size : Int) - bw)
      ("#2E7D32") bw,
    Effect.text (x + so) (y + so) ("IM") ("#1B5E20") font,
    Effect.text x y ("IM") ("white") font,
    Effect.save output_path ("PNG"),
    Effect.print ("Created " ++ output_path ++ " (" ++ toString size ++ "x"
      ++ toString size ++ ")") ]

/-- The fixed list of icon sizes of `main`. -/
def sizes : List Nat := [72, 96, 128, 144, 152, 192, 384, 512]

/-- The output path `f'\x7bicons_dir\x7d/icon-\x7bsize\x7dx\x7bsize\x7d.png'`
built by `main`. -/
def icon_path (size : Nat) : String :=
  "images/icons/icon-" ++ toString size ++ "x" ++ toString size ++ ".png"

/-- The effect trace of `main()`: create the icons directory, generate each
icon in order, print the summary count. -/
def main_run (fontOk : Bool) (tb : TextBBox) : List Effect :=
  Effect.makedirs ("images/icons") true ::
    sizes.flatMap (fun size => create_icon size (icon_path size) fontOk tb) ++
    [Effect.print ("\nSuccessfully generated " ++ toString sizes.length
      ++ " PWA icons!")]

/-- The `(mode, width, height)` of every image allocation in a trace. -/
def new_images (tr : List Effect) : List (String × Nat × Nat) :=
  tr.filterMap fun e =>
    match e with
    | Effect.newImage mode w h _ => some (mode, w, h)
    | _ => none

/-- The `(path, format)` of every file save in a trace. -/
def saves (tr : List Effect) : List (String × String) :=
  tr.filterMap fun e =>
    match e with
    | Effect.save p f => some (p, f)
    | _ => none

/-- The `(x0, y0, x1, y1, outline, width)` of every rectangle drawn in a
trace. -/
def rectangles (tr : List Effect) : List (Int × Int × Int × Int × String × Nat) :=
  tr.filterMap fun e =>
    match e with
    | Effect.rectangle x0 y0 x1 y1 o w => some (x0, y0, x1, y1, o, w)
    | _ => none

/-- The `(x, y, text, fill)` of every text drawing in a trace, in drawing
order. -/
def text_draws (tr : List Effect) : List (Int × Int × String × String) :=
  tr.filterMap fun e =>
    match e with
    | Effect.text x y s fill _ => some (x, y, s, fill)
    | _ => none

/-- The `x` coordinate of every text drawn with fill "white" in a trace. -/
def white_text_xs (tr : List Effect) : List Int :=
  tr.filterMap fun e =>
    match e with
    | Effect.text x _ _ fill _ => if fill = "white" then some x else none
    | _ => none

/-- The directory paths of every `os.makedirs` call in a trace. -/
def makedirs_calls (tr : List Effect) : List String :=
  tr.filterMap fun e =>
    match e with
    | Effect.makedirs p _ => some p
    | _ => none

/-- Well-formedness of the border rectangle: the top-left corner is
component-wise at most the bottom-right corner. -/
def border_rect_wf (size : Nat) : Prop :=
  (border_width size : Int) ≤ (size : Int) - border_width size

instance (size : Nat) : Decidable (border_rect_wf size) := by
  unfold border_rect_wf; infer_instance

/-- A sample text-measurement oracle, used to instantiate witnesses. -/
def tb0 : TextBBox := fun _ _ => ⟨0, 0, 0, 0⟩

/-- Claim C1: for every size in the fixed set, `create_icon` allocates a
square RGB canvas of dimensions exactly size × size and saves it as a PNG
at the given destination path. -/
theorem C1_icon_dimensions (size : Nat) (h : size ∈ sizes) (path : String)
    (fontOk : Bool) (tb : TextBBox) :
    new_images (create_icon size path fontOk tb) = [("RGB", size, size)] ∧
    saves (create_icon size path fontOk tb) = [(path, "PNG")] :=
  ⟨rfl, rfl⟩

/-- Witness for C1 at size 72. -/
theorem C1_icon_dimensions_witness :
    new_images (create_icon 72 ("images/icons/icon-72x72.png") true tb0) =
      [("RGB", 72, 72)] ∧
    saves (create_icon 72 ("images/icons/icon-72x72.png") true tb0) =
      [("images/icons/icon-72x72.png", "PNG")] :=
  C1_icon_dimensions 72 (by decide) ("images/icons/icon-72x72.png") true tb0

/-- Claim C2: the driver iterates the fixed ordered list of eight sizes
exactly once each and in order, saving to `icon-\x7bsize\x7dx\x7bsize\x7d.png`
under `images/icons`, producing exactly 8 output files, then reports a
summary count of 8. -/
theorem C2_driver_outputs (fontOk : Bool) (tb : TextBBox) :
    saves (main_run fontOk tb) =
      [("images/icons/icon-72x72.png", "PNG"),
       ("images/icons/icon-96x96.png", "PNG"),
       ("images/icons/icon-128x128.png", "PNG"),
       ("images/icons/icon-144x144.png", "PNG"),
       ("images/icons/icon-152x152.png", "PNG"),
       ("images/icons/icon-192x192.png", "PNG"),
       ("images/icons/icon-384x384.png", "PNG"),
       ("images/icons/icon-512x512.png", "PNG")] ∧
    saves (main_run fontOk tb) = sizes.map (fun s => (icon_path s, "PNG")) ∧
    (main_run fontOk tb).getLast? =
      some (Effect.print ("\nSuccessfully generated 8 PWA icons!")) :=
  ⟨rfl, rfl, rfl⟩

/-- Claim C3 counterexample: `create_icon` itself performs no directory
creation at all — at a concrete call it writes the file but its trace
contains no `makedirs`; the directory is created by the driver instead. -/
theorem C3_counterexample :
    makedirs_calls (create_icon 72 ("images/icons/icon-72x72.png") true tb0) = [] ∧
    saves (create_icon 72 ("images/icons/icon-72x72.png") true tb0) =
      [("images/icons/icon-72x72.png", "PNG")] :=
  ⟨rfl, rfl⟩

/-- Claim C3 (amended): `create_icon` never creates a directory; the
driver `main` creates the output directory (with `exist_ok=True`) as its
very first action, before any icon is generated or written. -/
theorem C3_directory_created_by_driver (size : Nat) (path : String)
    (fontOk : Bool) (tb : TextBBox) :
    makedirs_calls (create_icon size path fontOk tb) = [] ∧
    (main_run fontOk tb).head? = some (Effect.makedirs ("images/icons") true) :=
  ⟨rfl, rfl⟩

/-- Claim C4: for every size ≥ 1 the border width is max(2, size // 40) —
at least 2 px, and equal to size // 40 whenever that exceeds 2 — and the
border rectangle is inset from each edge by that width. -/
theorem C4_border_width (size : Nat) (h : 1 ≤ size) (path : String)
    (fontOk : Bool) (tb : TextBBox) :
    2 ≤ border_width size ∧
    (2 < size / 40 → border_width size = size / 40) ∧
    rectangles (create_icon size path fontOk tb) =
      [((border_width size : Int), (border_width size : Int),
        (size : Int) - border_width size, (size : Int) - border_width size,
        "#2E7D32", border_width size)] :=
  ⟨le_max_left 2 _, fun h2 => max_eq_right (le_of_lt h2), rfl⟩

/-- Witness for C4 at size 192. -/
theorem C4_border_width_witness :
    1 ≤ 192 ∧
    (2 ≤ border_width 192 ∧
     (2 < 192 / 40 → border_width 192 = 192 / 40) ∧
     rectangles (create_icon 192 ("p") true tb0) =
       [((border_width 192 : Int), (border_width 192 : Int),
         ((192 : Nat) : Int) - border_width 192,
         ((192 : Nat) : Int) - border_width 192,
         "#2E7D32", border_width 192)]) :=
  ⟨by decide, C4_border_width 192 (by decide) ("p") true tb0⟩

/-- Claim C5: for every size and measured text width, the foreground text
is drawn at horizontal coordinate floor((size - text_width) / 2). -/
theorem C5_text_centering (size : Nat) (path : String) (fontOk : Bool)
    (tb : TextBBox) :
    white_text_xs (create_icon size path fontOk tb) =
      [Int.fdiv ((size : Int) - text_width size fontOk tb) 2] :=
  rfl

/-- Claim C6: when loading the truetype font (sized size // 2) fails, the
font-loading step yields an error that `create_icon` silently recovers
from by using the default bitmap font, and the operation still completes:
it saves the PNG and prints its status line. -/
theorem C6_font_fallback (size : Nat) (path : String) (tb : TextBBox) :
    (∃ msg, truetype_load false ("/System/Library/Fonts/Helvetica.ttc")
      (size / 2) = Except.error msg) ∧
    chosen_font false size = Font.load_default ∧
    saves (create_icon size path false tb) = [(path, "PNG")] ∧
    (create_icon size path false tb).getLast? =
      some (Effect.print ("Created " ++ path ++ " (" ++ toString size ++ "x"
        ++ toString size ++ ")")) :=
  ⟨⟨"cannot open resource", rfl⟩, rfl, rfl, rfl⟩

/-- Claim C7: every call of `create_icon` draws the text "IM" exactly
twice: first offset by the shadow offset in both axes in the shadow color
"#1B5E20", then at the true centered position in white, in that order. -/
theorem C7_text_drawn_twice (size : Nat) (path : String) (fontOk : Bool)
    (tb : TextBBox) :
    text_draws (create_icon size path fontOk tb) =
      [(text_x size fontOk tb + (shadow_offset size : Int),
        text_y size fontOk tb + (shadow_offset size : Int), "IM", "#1B5E20"),
       (text_x size fontOk tb, text_y size fontOk tb, "IM", "white")] :=
  rfl

/-- Claim C8: generation is deterministic — two runs with the same
font-loading outcome and the same text measurement produce identical
effect traces, hence byte-identical output for every size. -/
theorem C8_deterministic (fontOk1 fontOk2 : Bool) (tb1 tb2 : TextBBox)
    (hf : fontOk1 = fontOk2) (ht : tb1 = tb2) :
    main_run fontOk1 tb1 = main_run fontOk2 tb2 := by
  rw [hf, ht]

/-- Witness for C8 with both runs using the available system font and the
sample measurement oracle. -/
theorem C8_deterministic_witness :
    main_run true tb0 = main_run true tb0 :=
  C8_deterministic true true tb0 tb0 rfl rfl

/-- Claim C9: the border rectangle is well-formed (top-left ≤ bottom-right
component-wise) for every size in the fixed call set, but not for every
positive size: it fails for every size with 1 ≤ size < 4. -/
theorem C9_border_wf :
    (∀ s ∈ sizes, border_rect_wf s) ∧
    (∀ s : Nat, 1 ≤ s → s < 4 → ¬ border_rect_wf s) := by
  constructor
  · decide
  · intro s h1 h2
    have h40 : s / 40 = 0 := Nat.div_eq_of_lt (by omega)
    simp only [border_rect_wf, border_width, h40]
    omega

/-- Witness for C9: well-formed at size 72, not well-formed at size 3. -/
theorem C9_border_wf_witness :
    border_rect_wf 72 ∧ ¬ border_rect_wf 3 :=
  ⟨C9_border_wf.1 72 (by decide), C9_border_wf.2 3 (by decide) (by decide)⟩

/-- Claim C10: for every size ≥ 1 the shadow offset equals
max(1, size // 100), hence is at least 1 pixel, so the shadow text is
drawn at a position distinct from the foreground text position. -/
theorem C10_shadow_offset (size : Nat) (h : 1 ≤ size) (path : String)
    (fontOk : Bool) (tb : TextBBox) :
    shadow_offset size = max 1 (size / 100) ∧
    1 ≤ shadow_offset size ∧
    (text_draws (create_icon size path fontOk tb)).map (fun t => (t.1, t.2.1)) =
      [(text_x size fontOk tb + (shadow_offset size : Int),
        text_y size fontOk tb + (shadow_offset size : Int)),
       (text_x size fontOk tb, text_y size fontOk tb)] ∧
    (text_x size fontOk tb + (shadow_offset size : Int),
      text_y size fontOk tb + (shadow_offset size : Int)) ≠
      (text_x size fontOk tb, text_y size fontOk tb) := by
  have h1 : 1 ≤ shadow_offset size := le_max_left 1 _
  refine ⟨rfl, h1, rfl, ?_⟩
  intro hc
  have hx : text_x size fontOk tb + (shadow_offset size : Int) =
      text_x size fontOk tb := congrArg Prod.fst hc
  omega

/-- Witness for C10 at size 72. -/
theorem C10_shadow_offset_witness :
    1 ≤ 72 ∧
    (shadow_offset 72 = max 1 (72 / 100) ∧
     1 ≤ shadow_offset 72 ∧
     (text_draws (create_icon 72 ("p") true tb0)).map (fun t => (t.1, t.2.1)) =
       [(text_x 72 true tb0 + (shadow_offset 72 : Int),
         text_y 72 true tb0 + (shadow_offset 72 : Int)),
        (text_x 72 true tb0, text_y 72 true tb0)] ∧
     (text_x 72 true tb0 + (shadow_offset 72 : Int),
       text_y 72 true tb0 + (shadow_offset 72 : Int)) ≠
       (text_x 72 true tb0, text_y 72 true tb0)) :=
  ⟨by decide, C10_shadow_offset 72 (by decide) ("p") true tb0⟩
